import Mathlib

/-!
Verification of the camera-targeting and coordinate-normalization core of
the astroVizualizer frontend (`AsteroidScene` component plus its host `App`).

The component's numeric values are embedded as rationals (ℚ); all three.js
vector operations used by the code (`add`, `sub`, `lerp`, `multiplyScalar`,
`length`) act componentwise or are ordinary field arithmetic, except
`length`, which involves a square root.  Euclidean distances are therefore
passed around as certified values `d` with `0 ≤ d ∧ d * d = normSq p`, so
every definition stays computable and evaluable on concrete inputs.
-/

/-- A 3D vector, as produced by `new THREE.Vector3(x, y, z)`. -/
abbrev Vec3 := ℚ × ℚ × ℚ

/-- Componentwise addition (`Vector3.add`). -/
def vadd (a b : Vec3) : Vec3 := (a.1 + b.1, a.2.1 + b.2.1, a.2.2 + b.2.2)

/-- Componentwise subtraction (`Vector3.sub`). -/
def vsub (a b : Vec3) : Vec3 := (a.1 - b.1, a.2.1 - b.2.1, a.2.2 - b.2.2)

/-- Scalar multiplication (`Vector3.multiplyScalar`). -/
def smul (c : ℚ) (a : Vec3) : Vec3 := (c * a.1, c * a.2.1, c * a.2.2)

/-- `Vector3.lerp(b, t)` applied to `a`: each component moves the fraction
`t` of the remaining distance toward `b`. -/
def lerpV (a b : Vec3) (t : ℚ) : Vec3 := vadd a (smul t (vsub b a))

/-- Squared Euclidean norm of a vector; `Vector3.length()` is its square
root, which is handled via certificates (see `distsFor`). -/
def normSq (p : Vec3) : ℚ := p.1 * p.1 + p.2.1 * p.2.1 + p.2.2 * p.2.2

/-- An entity of the scene, from the `Asteroid` interface of the source. -/
structure Asteroid where
  id : String
  name : String
  position : Vec3
  size : ℚ
  orbit : List Vec3
deriving DecidableEq, Repr

/-! ## Scale Normalizer

Source (`AsteroidScene`, the `scale` useMemo):
```
const pts = data.asteroids.map((a) => new THREE.Vector3(...a.position));
const maxDist = pts.reduce((m, p) => Math.max(m, p.length()), 0) || 1;
const desiredMax = 30;
const s = maxDist > 0 ? desiredMax / maxDist : 1;
return Math.max(0.02, Math.min(s, 5));
```
The reduce over `Math.max` starting at `0` is `maxDistOf` applied to the
list of entity distances; `|| 1` substitutes `1` for a (falsy) zero.
-/

/-- `Math.max` on numbers that are not NaN (the larger argument). -/
def mathMax (a b : ℚ) : ℚ := if a ≤ b then b else a

/-- `Math.min` on numbers that are not NaN (the smaller argument). -/
def mathMin (a b : ℚ) : ℚ := if a ≤ b then a else b

/-- `pts.reduce((m, p) => Math.max(m, p.length()), 0)`, taking the already
extracted list of distances-from-origin. -/
def maxDistOf (dists : List ℚ) : ℚ := dists.foldl (fun m d => mathMax m d) 0

/-- JavaScript `x || 1` on a number that is not NaN: `0` is falsy. -/
def jsOrOne (x : ℚ) : ℚ := if x = 0 then 1 else x

/-- The `scale` useMemo body, as a function of the list of entity
distances-from-origin (`p.length()` for each entity position). -/
def computeScale (dists : List ℚ) : ℚ :=
  let maxDist := jsOrOne (maxDistOf dists)
  let s := if 0 < maxDist then 30 / maxDist else 1
  mathMax (1/50) (mathMin s 5)

/-- `ds` is the list of Euclidean distances from origin of the positions of
`asts`, elementwise: each `d` is nonnegative and squares to the squared
norm of the corresponding position.  This certifies the `p.length()` calls
of the source without leaving ℚ. -/
def distsFor : List Asteroid → List ℚ → Bool
  | [], [] => true
  | a :: as, d :: ds =>
      (decide (0 ≤ d) && decide (d * d = normSq a.position)) && distsFor as ds
  | _, _ => false

/-! ## Render Projector

Source (`AsteroidScene` JSX body):
```
const scaledPos = (asteroid.position).map((v) => v * scale);
...
<Line points={asteroid.orbit.map((pt) => [pt[0]*scale, pt[1]*scale, pt[2]*scale])} ... />
```
-/

/-- `scaledPos`: the raw position with each component multiplied by
`scale`. -/
def scaledPos (scale : ℚ) (a : Asteroid) : Vec3 :=
  (a.position.1 * scale, a.position.2.1 * scale, a.position.2.2 * scale)

/-- The `points` prop of the orbit `Line`: each orbit point componentwise
multiplied by `scale`. -/
def renderOrbit (scale : ℚ) (a : Asteroid) : List Vec3 :=
  a.orbit.map (fun pt => (pt.1 * scale, pt.2.1 * scale, pt.2.2 * scale))

/-! ## Camera Target Controller and Event Bridge

The component's camera-relevant mutable state: `targetRef` (the active
focus point), the camera position and its last `lookAt` argument, the
optional navigation-control surface (`controlsRef.current` or the ambient
`state.controls`), and the pending `setTimeout` armed by the reset effect.
Timers are modelled with identifiers plus the recorded expiry instant; a
`clearTimeout`-cancelled identifier no longer matches the pending slot, so
delivering its expiry is a no-op.  `clearCount` counts executions of the
timeout callback (the `Idle` transitions).
-/

/-- The navigation-control capability surface (duck-typed `controls`
object).  `target`, `enableRotate` and `enabled` are `none` when the field
is absent on the object (`typeof ... === 'undefined'`); `updateCount`
counts `controls.update()` calls. -/
structure Controls where
  target : Option Vec3
  enableRotate : Option Bool
  enabled : Option Bool
  updateCount : Nat
deriving DecidableEq, Repr

/-- The component's camera-relevant mutable state. -/
structure SceneState where
  targetRef : Option Vec3
  cameraPos : Vec3
  cameraLookAt : Option Vec3
  controls : Option Controls
  pendingTimer : Option (Nat × Nat)
  nextTimerId : Nat
  clearCount : Nat
deriving DecidableEq, Repr

/-- In JavaScript, `!highlightId` is true for `null`/`undefined` and for
the empty string. -/
def jsFalsyId : Option String → Bool
  | none => true
  | some id => id = ""

/-- The `useEffect [highlightId, data.asteroids]` body:
```
if (!highlightId) { targetRef.current = null; return; }
const found = data.asteroids.find((a) => a.id === highlightId);
if (found) targetRef.current = new THREE.Vector3(...found.position).multiplyScalar(scale);
```
An unresolvable truthy id falls through both branches and leaves
`targetRef` untouched. -/
def highlightEffect (asts : List Asteroid) (scale : ℚ) (hid : Option String)
    (s : SceneState) : SceneState :=
  if jsFalsyId hid then { s with targetRef := none }
  else
    match asts.find? (fun a => a.id = hid.getD "") with
    | some a => { s with targetRef := some (smul scale a.position) }
    | none => s

/-- The `useEffect [resetSignal, camera, controls]` body, together with the
React cleanup of its previous run (`() => clearTimeout(timeout)`), which
executes first whenever the effect re-runs.  Only this effect arms timers,
so the cleanup empties `pendingTimer`.  Body, guarded by
`typeof resetSignal === 'number'`:
```
targetRef.current = origin.clone().multiplyScalar(1);
const desired = new THREE.Vector3(0, 20 * Math.max(1, scale), 40 * Math.max(1, scale));
camera.position.copy(desired);
if (controls) { controls.target.copy(origin); enableRotate/enabled := true; controls.update(); }
else camera.lookAt(origin);
const timeout = setTimeout(() => { targetRef.current = null; }, 600);
```
`now` is the instant at which the effect runs; the armed timer records its
expiry `now + 600`. -/
def resetEffect (scale : ℚ) (resetSignal : Option ℤ) (now : Nat)
    (s : SceneState) : SceneState :=
  let s0 := { s with pendingTimer := none }
  match resetSignal with
  | none => s0
  | some _ =>
      let origin : Vec3 := (0, 0, 0)
      let m := mathMax 1 scale
      let desired : Vec3 := (0, 20 * m, 40 * m)
      let s1 := { s0 with targetRef := some (smul 1 origin), cameraPos := desired }
      let s2 :=
        match s1.controls with
        | some c =>
            let c1 : Controls :=
              { target := some origin
                enableRotate := c.enableRotate.map (fun _ => true)
                enabled := c.enabled.map (fun _ => true)
                updateCount := c.updateCount + 1 }
            { s1 with controls := some c1 }
        | none => { s1 with cameraLookAt := some origin }
      { s2 with pendingTimer := some (s2.nextTimerId, now + 600),
                nextTimerId := s2.nextTimerId + 1 }

/-- Expiry of the `setTimeout` with identifier `tid`: the callback
`() => { targetRef.current = null; }` runs only if that timer is still the
pending one (a `clearTimeout`-ed timer never fires). -/
def timerExpire (tid : Nat) (s : SceneState) : SceneState :=
  match s.pendingTimer with
  | some (id, _) =>
      if id = tid then
        { s with targetRef := none, pendingTimer := none,
                 clearCount := s.clearCount + 1 }
      else s
  | none => s

/-- The `useFrame` body restricted to camera state (the slow group rotation
touches only the group, not the camera):
```
if (targetRef.current) {
  const t = 0.08;
  const desired = new THREE.Vector3().copy(targetRef.current)
      .add(new THREE.Vector3(0, 12 * scale, 24 * scale));
  camera.position.lerp(desired, t);
  if (controls) {
    if (!controls.target) controls.target = new THREE.Vector3();
    controls.target.lerp(targetRef.current, t);
    controls.update();
  } else camera.lookAt(targetRef.current);
}
```
-/
def frameStep (scale : ℚ) (s : SceneState) : SceneState :=
  match s.targetRef with
  | none => s
  | some tgt =>
      let t : ℚ := 8/100
      let desired := vadd tgt (0, 12 * scale, 24 * scale)
      let s1 := { s with cameraPos := lerpV s.cameraPos desired t }
      match s1.controls with
      | some c =>
          let ct := c.target.getD (0, 0, 0)
          { s1 with controls := some { c with target := some (lerpV ct tgt t),
                                              updateCount := c.updateCount + 1 } }
      | none => { s1 with cameraLookAt := some tgt }

/-- External events driving the component, each applied via `step`. -/
inductive Ev
  | highlight (hid : Option String)
  | reset (sig : Option ℤ) (now : Nat)
  | expire (tid : Nat)
  | frame
deriving DecidableEq, Repr

/-- One event-step of the component. -/
def step (asts : List Asteroid) (scale : ℚ) (s : SceneState) : Ev → SceneState
  | Ev.highlight hid => highlightEffect asts scale hid s
  | Ev.reset sig now => resetEffect scale sig now s
  | Ev.expire tid => timerExpire tid s
  | Ev.frame => frameStep scale s

/-- Run a sequence of events. -/
def run (asts : List Asteroid) (scale : ℚ) (s : SceneState) (evs : List Ev) :
    SceneState :=
  evs.foldl (step asts scale) s

/-- The state right after the component is created, before any effect has
run: no focus, no pending timer. -/
def initState (cam0 : Vec3) (controls : Option Controls) : SceneState :=
  { targetRef := none, cameraPos := cam0, cameraLookAt := none,
    controls := controls, pendingTimer := none, nextTimerId := 0,
    clearCount := 0 }

/-- Mounting the component: React runs both effects once, in declaration
order (the `highlightId` effect, then the `resetSignal` effect), with the
initial prop values. -/
def mount (asts : List Asteroid) (scale : ℚ) (hid : Option String)
    (sig : Option ℤ) (now : Nat) (cam0 : Vec3) (controls : Option Controls) :
    SceneState :=
  resetEffect scale sig now (highlightEffect asts scale hid (initState cam0 controls))

/-! ## Bridging lemmas -/

/-- `mathMax` agrees with the order-theoretic `max` on ℚ. -/
theorem mathMax_eq (a b : ℚ) : mathMax a b = max a b := by
  rw [mathMax, max_def]

/-- `mathMin` agrees with the order-theoretic `min` on ℚ. -/
theorem mathMin_eq (a b : ℚ) : mathMin a b = min a b := by
  rw [mathMin, min_def]

/-- The fold underlying `maxDistOf` never goes below its accumulator. -/
theorem foldl_mathMax_init_le (ds : List ℚ) :
    ∀ m : ℚ, m ≤ ds.foldl (fun m d => mathMax m d) m := by
  induction ds with
  | nil => intro m; simp
  | cons d tl ih =>
      intro m
      calc m ≤ mathMax m d := by rw [mathMax_eq]; exact le_max_left m d
        _ ≤ tl.foldl (fun m d => mathMax m d) (mathMax m d) := ih _

/-- `maxDistOf` is nonnegative (the reduce starts at `0`). -/
theorem maxDistOf_nonneg (ds : List ℚ) : 0 ≤ maxDistOf ds :=
  foldl_mathMax_init_le ds 0

/-- With a positive maximum distance, both the `|| 1` substitution and the
`maxDist > 0` conditional of the scale computation are resolved. -/
theorem computeScale_of_pos (ds : List ℚ) (h : 0 < maxDistOf ds) :
    computeScale ds = mathMax (1/50) (mathMin (30 / maxDistOf ds) 5) := by
  show mathMax (1/50)
      (mathMin (if 0 < jsOrOne (maxDistOf ds) then 30 / jsOrOne (maxDistOf ds) else 1) 5) = _
  have h1 : jsOrOne (maxDistOf ds) = maxDistOf ds := by rw [jsOrOne, if_neg h.ne']
  rw [h1, if_pos h]

/-- Certified distance lists for the same entity list are unique: a
nonnegative rational square root is unique. -/
theorem distsFor_inj (asts : List Asteroid) :
    ∀ ds ds', distsFor asts ds = true → distsFor asts ds' = true → ds = ds' := by
  induction asts with
  | nil =>
      intro ds ds' h h'
      cases ds <;> cases ds' <;> simp_all [distsFor]
  | cons a tl ih =>
      intro ds ds' h h'
      cases ds with
      | nil => simp [distsFor] at h
      | cons d dtl =>
        cases ds' with
        | nil => simp [distsFor] at h'
        | cons d' dtl' =>
          simp only [distsFor, Bool.and_eq_true, decide_eq_true_eq] at h h'
          obtain ⟨⟨h0, hsq⟩, htl⟩ := h
          obtain ⟨⟨h0', hsq'⟩, htl'⟩ := h'
          have hd : d = d' := (mul_self_inj h0 h0').mp (by rw [hsq, hsq'])
          rw [hd, ih dtl dtl' htl htl']

/-- Doubling an entity's position, as in claim C9. -/
def doublePos (a : Asteroid) : Asteroid := { a with position := smul 2 a.position }

/-- Certified distances transport along doubling of all positions. -/
theorem distsFor_double (asts : List Asteroid) :
    ∀ ds, distsFor asts ds = true →
      distsFor (asts.map doublePos) (ds.map (fun d => 2 * d)) = true := by
  induction asts with
  | nil => intro ds h; cases ds <;> simp_all [distsFor]
  | cons a tl ih =>
      intro ds h
      cases ds with
      | nil => simp [distsFor] at h
      | cons d dtl =>
        simp only [distsFor, Bool.and_eq_true, decide_eq_true_eq] at h
        obtain ⟨⟨h0, hsq⟩, htl⟩ := h
        simp only [List.map_cons, distsFor, Bool.and_eq_true, decide_eq_true_eq]
        refine ⟨⟨by linarith, ?_⟩, ih dtl htl⟩
        have hns : normSq (doublePos a).position = 4 * normSq a.position := by
          simp only [doublePos, smul, normSq]
          ring
        rw [hns, ← hsq]; ring

/-- Doubling every distance doubles the reduce-max (the base `0` is fixed
by doubling). -/
theorem foldl_mathMax_double (ds : List ℚ) :
    ∀ m : ℚ, (ds.map (fun d => 2 * d)).foldl (fun m d => mathMax m d) (2 * m)
      = 2 * ds.foldl (fun m d => mathMax m d) m := by
  induction ds with
  | nil => intro m; simp
  | cons d tl ih =>
      intro m
      simp only [List.map_cons, List.foldl_cons]
      rw [show mathMax (2*m) (2*d) = 2 * mathMax m d by
            rw [mathMax_eq, mathMax_eq, mul_max_of_nonneg _ _ (by norm_num : (0:ℚ) ≤ 2)]]
      exact ih (mathMax m d)

/-- `maxDistOf` scales linearly under doubling of every distance. -/
theorem maxDistOf_double (ds : List ℚ) :
    maxDistOf (ds.map (fun d => 2 * d)) = 2 * maxDistOf ds := by
  have h := foldl_mathMax_double ds 0
  rw [mul_zero] at h
  exact h

/-- The clamp `Math.max(0.02, Math.min(s, 5))` lands in `[0.02, 5]` for any
input. -/
theorem computeScale_mem (ds : List ℚ) :
    1/50 ≤ computeScale ds ∧ computeScale ds ≤ 5 := by
  have h : ∀ x : ℚ, 1/50 ≤ mathMax (1/50) (mathMin x 5) ∧
      mathMax (1/50) (mathMin x 5) ≤ 5 := by
    intro x
    rw [mathMax_eq, mathMin_eq]
    exact ⟨le_max_left _ _, max_le (by norm_num) (min_le_right _ _)⟩
  exact h _

/-! ## Claim theorems -/

/-- Claim C1, counterexample: for the empty entity collection the Scale
Normalizer does not yield `1`: the `|| 1` floor turns `maxDist` into `1`,
so `s = 30 / 1 = 30`, which the clamp cuts to `5`. -/
theorem computeScale_empty_ne_one : computeScale [] ≠ 1 := by
  norm_num [computeScale, jsOrOne, maxDistOf, mathMax, mathMin]

/-- Claim C1, amended: for an empty entity collection (whose certified
distance list is necessarily empty), the Scale Normalizer yields scale `5`:
`maxDist` is `0`, floor-substituted to `1`, so `s = 30 / 1 = 30`, clamped
into `[0.02, 5]` to `5`. -/
theorem computeScale_empty_eq_five (ds : List ℚ) (h : distsFor [] ds = true) :
    computeScale ds = 5 := by
  cases ds with
  | nil => norm_num [computeScale, jsOrOne, maxDistOf, mathMax, mathMin]
  | cons d tl => simp [distsFor] at h

/-- Witness for `computeScale_empty_eq_five` at the empty scene. -/
theorem computeScale_empty_eq_five_witness :
    distsFor [] [] = true ∧ computeScale [] = 5 :=
  ⟨rfl, computeScale_empty_eq_five [] rfl⟩

/-- Claim C8: for a non-empty entity list with certified (hence finite
rational) distances, the computed scale lies in `[0.02, 5]`, in particular
is nonnegative, and is a deterministic pure function of the positions: any
two certified distance lists for the same entities yield the same scale. -/
theorem computeScale_bounds_deterministic (asts : List Asteroid)
    (ds ds' : List ℚ) (_hne : asts ≠ []) (h : distsFor asts ds = true)
    (h' : distsFor asts ds' = true) :
    (1/50 ≤ computeScale ds ∧ computeScale ds ≤ 5 ∧ 0 ≤ computeScale ds) ∧
      computeScale ds' = computeScale ds := by
  obtain ⟨h1, h2⟩ := computeScale_mem ds
  refine ⟨⟨h1, h2, le_trans (by norm_num) h1⟩, ?_⟩
  rw [distsFor_inj asts ds' ds h' h]

/-- Witness for `computeScale_bounds_deterministic` on the singleton scene
with one entity at `(100, 0, 0)`. -/
theorem computeScale_bounds_deterministic_witness :
    (1/50 ≤ computeScale [(100:ℚ)] ∧ computeScale [(100:ℚ)] ≤ 5 ∧
        0 ≤ computeScale [(100:ℚ)]) ∧
      computeScale [(100:ℚ)] = computeScale [(100:ℚ)] :=
  computeScale_bounds_deterministic [⟨"a", "A", (100, 0, 0), 1, []⟩]
    [100] [100] (by simp) (by norm_num [distsFor, normSq])
    (by norm_num [distsFor, normSq])

/-- Claim C9: with `maxDist` above the floor (positive, so the `|| 1`
substitution does not fire), doubling every position's magnitude does not
increase the computed scale; the doubled positions are certified by the
doubled distances, whose maximum is exactly doubled. -/
theorem computeScale_antitone_double (asts : List Asteroid) (ds : List ℚ)
    (h : distsFor asts ds = true) (hpos : 0 < maxDistOf ds) :
    distsFor (asts.map doublePos) (ds.map (fun d => 2 * d)) = true ∧
    maxDistOf (ds.map (fun d => 2 * d)) = 2 * maxDistOf ds ∧
    computeScale (ds.map (fun d => 2 * d)) ≤ computeScale ds := by
  refine ⟨distsFor_double asts ds h, maxDistOf_double ds, ?_⟩
  have h2 : 0 < maxDistOf (ds.map (fun d => 2 * d)) := by
    rw [maxDistOf_double]; linarith
  rw [computeScale_of_pos _ h2, computeScale_of_pos _ hpos, maxDistOf_double]
  rw [mathMax_eq, mathMax_eq, mathMin_eq, mathMin_eq]
  refine max_le_max le_rfl (min_le_min ?_ le_rfl)
  exact (div_le_div_iff_of_pos_left (by norm_num) (by linarith) hpos).mpr (by linarith)

/-- Witness for `computeScale_antitone_double` on the singleton scene with
one entity at `(100, 0, 0)`. -/
theorem computeScale_antitone_double_witness :
    distsFor ([⟨"a", "A", (100, 0, 0), 1, []⟩].map doublePos)
        ([(100:ℚ)].map (fun d => 2 * d)) = true ∧
    maxDistOf ([(100:ℚ)].map (fun d => 2 * d)) = 2 * maxDistOf [(100:ℚ)] ∧
    computeScale ([(100:ℚ)].map (fun d => 2 * d)) ≤ computeScale [(100:ℚ)] :=
  computeScale_antitone_double [⟨"a", "A", (100, 0, 0), 1, []⟩] [100]
    (by norm_num [distsFor, normSq]) (by norm_num [maxDistOf, mathMax])

/-- Claim C6: the render projection is scale-linear and exact: the
projected position is the raw position with each component multiplied by
the scale (the scalar multiple of the position vector); the orbit `Line`
points are the orbit points multiplied componentwise by the scale with
count and order preserved (elementwise at every index, no points dropped
or added); and for the singleton scene with an entity at raw position
`(100, 0, 0)`, `maxDist` is `100`, the scale is `30 / 100 = 3 / 10`, and
the projected position is `(30, 0, 0)`. -/
theorem render_projection_linear :
    (∀ (scale : ℚ) (a : Asteroid),
        scaledPos scale a
            = (a.position.1 * scale, a.position.2.1 * scale,
               a.position.2.2 * scale) ∧
        scaledPos scale a = smul scale a.position ∧
        (renderOrbit scale a).length = a.orbit.length ∧
        ∀ i : ℕ, (renderOrbit scale a)[i]?
            = (a.orbit[i]?).map
                (fun pt => (pt.1 * scale, pt.2.1 * scale, pt.2.2 * scale))) ∧
      (distsFor [⟨"a", "A", (100, 0, 0), 1, []⟩] [100] = true ∧
        maxDistOf [100] = 100 ∧
        computeScale [100] = 3/10 ∧
        scaledPos (3/10) ⟨"a", "A", (100, 0, 0), 1, []⟩ = (30, 0, 0)) := by
  constructor
  · intro scale a
    refine ⟨rfl, ?_, ?_, ?_⟩
    · simp [scaledPos, smul, Prod.mk.injEq, mul_comm]
    · simp [renderOrbit]
    · intro i
      simp [renderOrbit]
  · exact ⟨by norm_num [distsFor, normSq], by norm_num [maxDistOf, mathMax],
      by norm_num [computeScale, jsOrOne, maxDistOf, mathMax, mathMin],
      by norm_num [scaledPos]⟩

/-- A sample entity used in the concrete scenarios: id `"a"`, raw position
`(100, 0, 0)`. -/
def astA : Asteroid := ⟨"a", "A", (100, 0, 0), 1, []⟩

/-- A sample state with an active focus at `(30, 0, 0)` (the render
position of `astA` at scale `3/10`). -/
def sFocusing : SceneState :=
  { targetRef := some (30, 0, 0), cameraPos := (0, 20, 20),
    cameraLookAt := none, controls := none, pendingTimer := none,
    nextTimerId := 1, clearCount := 0 }

/-- Claim C2, counterexample: with the scene `[astA]` and an active focus,
a selection change to the unresolvable id `"zzz"` leaves the focus active —
the claim's "if the controller was in Focusing, activeFocus is cleared"
fails: the effect's `find` misses and nothing is written to `targetRef`. -/
theorem highlight_unresolvable_keeps_focus :
    (highlightEffect [astA] (3/10) (some "zzz") sFocusing).targetRef ≠ none := by
  simp [highlightEffect, jsFalsyId, astA, sFocusing]

/-- Claim C2, amended: a selection change to null clears the focus, and a
selection change to a non-null, non-empty unresolvable id is a silent
no-op that leaves the entire state — in particular the focus — unchanged:
from "no focus" it stays "no focus" (no exception, no camera jump), but an
active focus is retained rather than cleared. -/
theorem highlight_unresolvable_noop (asts : List Asteroid) (scale : ℚ)
    (id : String) (s : SceneState) (hid : id ≠ "")
    (hfind : asts.find? (fun a => a.id = id) = none) :
    highlightEffect asts scale (some id) s = s ∧
    highlightEffect asts scale none s = { s with targetRef := none } :=
  ⟨by simp [highlightEffect, jsFalsyId, hid, hfind], rfl⟩

/-- Witness for `highlight_unresolvable_noop`: scene `[astA]`, unknown id
`"zzz"`, starting from an active focus. -/
theorem highlight_unresolvable_noop_witness :
    highlightEffect [astA] (3/10) (some "zzz") sFocusing = sFocusing ∧
    highlightEffect [astA] (3/10) none sFocusing
      = { sFocusing with targetRef := none } :=
  highlight_unresolvable_noop [astA] (3/10) "zzz" sFocusing
    (by simp) (by simp [astA])

/-- Claim C3, counterexample: reset at time `0`, then selection of the
resolvable entity `"a"` inside the homing window (state re-enters
Focusing on `(30, 0, 0)`), then the leftover homing timer expires: the
expiry clears the newly set focus — `targetRef` ends `none`, contradicting
the claim that the later timer expiry does not clear it. -/
theorem leftover_timer_clears_new_focus :
    (run [astA] (3/10) (initState (0, 20, 20) none)
        [Ev.reset (some 1) 0, Ev.highlight (some "a")]).targetRef
      = some (30, 0, 0) ∧
    (run [astA] (3/10) (initState (0, 20, 20) none)
        [Ev.reset (some 1) 0, Ev.highlight (some "a"), Ev.expire 0]).targetRef
      = none := by
  constructor
  · simp [run, step, resetEffect, highlightEffect, jsFalsyId, astA,
      initState, smul]
    norm_num
  · simp [run, step, resetEffect, highlightEffect, timerExpire, jsFalsyId,
      astA, initState]

/-- Claim C3, amended: a selection change to a resolvable id arriving
after a reset's homing window begins re-enters Focusing immediately (the
focus becomes the entity's scaled render position) while the homing timer
stays armed; the pending `Idle` transition is NOT cancelled: when the
leftover timer expires it clears the newly set focus. -/
theorem select_in_homing_then_timer_clears (asts : List Asteroid)
    (scale : ℚ) (a : Asteroid) (id : String) (s : SceneState) (sig : ℤ)
    (now : Nat) (hid : id ≠ "")
    (hfind : asts.find? (fun x => x.id = id) = some a) :
    (highlightEffect asts scale (some id)
        (resetEffect scale (some sig) now s)).targetRef
      = some (smul scale a.position) ∧
    (highlightEffect asts scale (some id)
        (resetEffect scale (some sig) now s)).pendingTimer
      = some (s.nextTimerId, now + 600) ∧
    (timerExpire s.nextTimerId
        (highlightEffect asts scale (some id)
          (resetEffect scale (some sig) now s))).targetRef = none := by
  have hhi : ∀ s' : SceneState,
      highlightEffect asts scale (some id) s'
        = { s' with targetRef := some (smul scale a.position) } := by
    intro s'
    simp [highlightEffect, jsFalsyId, hid, hfind]
  have hrs : (resetEffect scale (some sig) now s).pendingTimer
      = some (s.nextTimerId, now + 600) := by
    cases hc : s.controls <;> simp [resetEffect, hc]
  refine ⟨by rw [hhi], ?_, ?_⟩
  · rw [hhi]
    exact hrs
  · rw [hhi]
    simp [timerExpire, hrs]

/-- Witness for `select_in_homing_then_timer_clears`: scene `[astA]`,
scale `3/10`, reset at time `0`, selection of `"a"`. -/
theorem select_in_homing_then_timer_clears_witness :
    (highlightEffect [astA] (3/10) (some "a")
        (resetEffect (3/10) (some 1) 0 (initState (0, 20, 20) none))).targetRef
      = some (smul (3/10) astA.position) ∧
    (highlightEffect [astA] (3/10) (some "a")
        (resetEffect (3/10) (some 1) 0 (initState (0, 20, 20) none))).pendingTimer
      = some ((initState (0, 20, 20) none).nextTimerId, 0 + 600) ∧
    (timerExpire (initState (0, 20, 20) none).nextTimerId
        (highlightEffect [astA] (3/10) (some "a")
          (resetEffect (3/10) (some 1) 0 (initState (0, 20, 20) none)))).targetRef
      = none :=
  select_in_homing_then_timer_clears [astA] (3/10) astA "a"
    (initState (0, 20, 20) none) 1 0 (by simp) (by simp [astA])


/-- Field-level description of a reset-effect run with a numeric signal:
focus, camera position, pending timer, counters. -/
theorem resetEffect_targetRef (scale : ℚ) (sig : ℤ) (now : Nat)
    (s : SceneState) :
    (resetEffect scale (some sig) now s).targetRef = some (0, 0, 0) := by
  cases hc : s.controls <;> simp [resetEffect, hc, smul]

/-- The reset effect assigns (snaps) the camera position. -/
theorem resetEffect_cameraPos (scale : ℚ) (sig : ℤ) (now : Nat)
    (s : SceneState) :
    (resetEffect scale (some sig) now s).cameraPos
      = (0, 20 * mathMax 1 scale, 40 * mathMax 1 scale) := by
  cases hc : s.controls <;> simp [resetEffect, hc]

/-- The reset effect arms a fresh 600-tick timer. -/
theorem resetEffect_pendingTimer (scale : ℚ) (sig : ℤ) (now : Nat)
    (s : SceneState) :
    (resetEffect scale (some sig) now s).pendingTimer
      = some (s.nextTimerId, now + 600) := by
  cases hc : s.controls <;> simp [resetEffect, hc]

/-- The reset effect consumes one timer identifier. -/
theorem resetEffect_nextTimerId (scale : ℚ) (sig : ℤ) (now : Nat)
    (s : SceneState) :
    (resetEffect scale (some sig) now s).nextTimerId = s.nextTimerId + 1 := by
  cases hc : s.controls <;> simp [resetEffect, hc]

/-- The reset effect itself never runs the timeout callback. -/
theorem resetEffect_clearCount (scale : ℚ) (sig : ℤ) (now : Nat)
    (s : SceneState) :
    (resetEffect scale (some sig) now s).clearCount = s.clearCount := by
  cases hc : s.controls <;> simp [resetEffect, hc]

/-- Claim C4: for any change of the reset signal (a number), in any state
including an active Focusing: the camera position is snapped (assigned,
not interpolated) to the home position `(0, 20, 40)` componentwise times
`max(1, scale)`, the focus becomes the origin; a present navigation
surface gets `target = origin`, its rotation/interaction flags set to
`true` whenever the fields exist, and a refresh; with no surface the
camera is pointed at the origin; a 600-tick timer is armed; and if that
timer then expires with no further signal, the focus is cleared and the
pending timer emptied (back to `Idle`). -/
theorem reset_effect_spec (scale : ℚ) (sig : ℤ) (now : Nat) (s : SceneState) :
    (resetEffect scale (some sig) now s).targetRef = some (0, 0, 0) ∧
    (resetEffect scale (some sig) now s).cameraPos
      = (0, 20 * mathMax 1 scale, 40 * mathMax 1 scale) ∧
    (resetEffect scale (some sig) now s).pendingTimer
      = some (s.nextTimerId, now + 600) ∧
    (∀ c, s.controls = some c →
      ∃ c1, (resetEffect scale (some sig) now s).controls = some c1 ∧
        c1.target = some (0, 0, 0) ∧
        (c.enableRotate.isSome → c1.enableRotate = some true) ∧
        (c.enabled.isSome → c1.enabled = some true) ∧
        c1.updateCount = c.updateCount + 1) ∧
    (s.controls = none →
      (resetEffect scale (some sig) now s).cameraLookAt = some (0, 0, 0)) ∧
    (timerExpire s.nextTimerId (resetEffect scale (some sig) now s)).targetRef
      = none ∧
    (timerExpire s.nextTimerId (resetEffect scale (some sig) now s)).pendingTimer
      = none := by
  have hpt := resetEffect_pendingTimer scale sig now s
  refine ⟨resetEffect_targetRef scale sig now s,
    resetEffect_cameraPos scale sig now s, hpt, ?_, ?_, ?_, ?_⟩
  · intro c hc
    refine ⟨{ target := some (0, 0, 0),
              enableRotate := c.enableRotate.map (fun _ => true),
              enabled := c.enabled.map (fun _ => true),
              updateCount := c.updateCount + 1 }, ?_, rfl, ?_, ?_, rfl⟩
    · simp [resetEffect, hc]
    · intro hs
      obtain ⟨b, hb⟩ := Option.isSome_iff_exists.mp hs
      simp [hb]
    · intro hs
      obtain ⟨b, hb⟩ := Option.isSome_iff_exists.mp hs
      simp [hb]
  · intro hc
    simp [resetEffect, hc]
  · simp [timerExpire, hpt]
  · simp [timerExpire, hpt]

/-- A sample navigation-control surface with every optional field
present. -/
def ctlA : Controls :=
  { target := some (1, 2, 3), enableRotate := some false,
    enabled := some false, updateCount := 0 }

/-- A sample state with surface `ctlA` attached and no focus. -/
def sCtl : SceneState :=
  { targetRef := none, cameraPos := (0, 20, 20), cameraLookAt := none,
    controls := some ctlA, pendingTimer := none, nextTimerId := 0,
    clearCount := 0 }

/-- Witness for `reset_effect_spec`: scale `2`, signal `1` at time `0`, in
state `sCtl`; every component of the conclusion evaluated concretely. -/
theorem reset_effect_spec_witness :
    (resetEffect 2 (some 1) 0 sCtl).targetRef = some (0, 0, 0) ∧
    (resetEffect 2 (some 1) 0 sCtl).cameraPos = (0, 40, 80) ∧
    (resetEffect 2 (some 1) 0 sCtl).pendingTimer = some (0, 600) ∧
    (resetEffect 2 (some 1) 0 sCtl).controls
      = some { target := some (0, 0, 0), enableRotate := some true,
               enabled := some true, updateCount := 1 } ∧
    (timerExpire 0 (resetEffect 2 (some 1) 0 sCtl)).targetRef = none ∧
    (timerExpire 0 (resetEffect 2 (some 1) 0 sCtl)).pendingTimer = none := by
  obtain ⟨h1, h2, h3, h4, _h5, h6, h7⟩ := reset_effect_spec 2 1 0 sCtl
  obtain ⟨c1, hc1, hct, hcr, hce, hcu⟩ := h4 ctlA (by rfl)
  refine ⟨h1, ?_, h3, ?_, h6, h7⟩
  · rw [h2]
    norm_num [mathMax]
  · rw [hc1]
    have hr : c1.enableRotate = some true := hcr (by simp [ctlA])
    have he : c1.enabled = some true := hce (by simp [ctlA])
    have hu : c1.updateCount = 1 := hcu
    cases c1
    simp_all

/-- Claim C5: two reset signals in quick succession (the second at `t2`,
before the first timer's expiry `t1 + 600`): the second effect run's
cleanup cancels the first timer and arms a new one expiring `600` after
the second signal; delivering the first (cancelled) timer identifier is a
complete no-op, and the second expiry clears the focus — exactly one
`Idle` transition occurs (the timeout callback runs exactly once), timed
from the second signal, with no double-clear and no stale transition. -/
theorem double_reset_single_idle (scale : ℚ) (sig1 sig2 : ℤ) (t1 t2 : Nat)
    (s : SceneState) (_ht : t2 < t1 + 600) :
    (resetEffect scale (some sig2) t2
        (resetEffect scale (some sig1) t1 s)).pendingTimer
      = some (s.nextTimerId + 1, t2 + 600) ∧
    timerExpire s.nextTimerId
        (resetEffect scale (some sig2) t2 (resetEffect scale (some sig1) t1 s))
      = resetEffect scale (some sig2) t2 (resetEffect scale (some sig1) t1 s) ∧
    (timerExpire (s.nextTimerId + 1)
        (timerExpire s.nextTimerId
          (resetEffect scale (some sig2) t2
            (resetEffect scale (some sig1) t1 s)))).targetRef = none ∧
    (timerExpire (s.nextTimerId + 1)
        (timerExpire s.nextTimerId
          (resetEffect scale (some sig2) t2
            (resetEffect scale (some sig1) t1 s)))).clearCount
      = s.clearCount + 1 := by
  have hpt : (resetEffect scale (some sig2) t2
      (resetEffect scale (some sig1) t1 s)).pendingTimer
        = some (s.nextTimerId + 1, t2 + 600) := by
    rw [resetEffect_pendingTimer, resetEffect_nextTimerId]
  have hcc : (resetEffect scale (some sig2) t2
      (resetEffect scale (some sig1) t1 s)).clearCount = s.clearCount := by
    rw [resetEffect_clearCount, resetEffect_clearCount]
  have hnoop : timerExpire s.nextTimerId
      (resetEffect scale (some sig2) t2 (resetEffect scale (some sig1) t1 s))
      = resetEffect scale (some sig2) t2 (resetEffect scale (some sig1) t1 s) := by
    simp [timerExpire, hpt]
  refine ⟨hpt, hnoop, ?_, ?_⟩
  · rw [hnoop]
    simp [timerExpire, hpt]
  · rw [hnoop]
    simp [timerExpire, hpt, hcc]

/-- Witness for `double_reset_single_idle`: two resets at times `0` and
`100`, starting from `sCtl`. -/
theorem double_reset_single_idle_witness :
    (resetEffect 2 (some 2) 100 (resetEffect 2 (some 1) 0 sCtl)).pendingTimer
      = some (sCtl.nextTimerId + 1, 100 + 600) ∧
    timerExpire sCtl.nextTimerId
        (resetEffect 2 (some 2) 100 (resetEffect 2 (some 1) 0 sCtl))
      = resetEffect 2 (some 2) 100 (resetEffect 2 (some 1) 0 sCtl) ∧
    (timerExpire (sCtl.nextTimerId + 1) (timerExpire sCtl.nextTimerId
        (resetEffect 2 (some 2) 100
          (resetEffect 2 (some 1) 0 sCtl)))).targetRef = none ∧
    (timerExpire (sCtl.nextTimerId + 1) (timerExpire sCtl.nextTimerId
        (resetEffect 2 (some 2) 100
          (resetEffect 2 (some 1) 0 sCtl)))).clearCount
      = sCtl.clearCount + 1 :=
  double_reset_single_idle 2 1 2 0 100 sCtl (by norm_num)

/-- Claim C7: per rendered frame: with no active focus the frame step
performs no mutation at all (the state is returned unchanged); with an
active focus `tgt`, the camera position moves by exactly the fraction
`0.08` of the remaining displacement toward
`tgt + (0, 12 * scale, 24 * scale)`; a present navigation surface has its
(zero-initialized when absent) look-at target moved by the same `lerp`
with the same factor toward `tgt` and its `update` invoked, with no
explicit camera `lookAt`; with no surface the camera is pointed directly
at `tgt` with no smoothing. -/
theorem frame_step_spec (scale : ℚ) (s : SceneState) :
    (s.targetRef = none → frameStep scale s = s) ∧
    (∀ tgt, s.targetRef = some tgt →
      vsub (frameStep scale s).cameraPos s.cameraPos
          = smul (8/100)
              (vsub (vadd tgt (0, 12 * scale, 24 * scale)) s.cameraPos) ∧
      (∀ c, s.controls = some c →
        (frameStep scale s).controls
            = some { c with
                target := some (lerpV (c.target.getD (0, 0, 0)) tgt (8/100)),
                updateCount := c.updateCount + 1 } ∧
        (frameStep scale s).cameraLookAt = s.cameraLookAt) ∧
      (s.controls = none → (frameStep scale s).cameraLookAt = some tgt)) := by
  constructor
  · intro h
    simp [frameStep, h]
  · intro tgt htgt
    have hcam : (frameStep scale s).cameraPos
        = lerpV s.cameraPos (vadd tgt (0, 12 * scale, 24 * scale)) (8/100) := by
      cases hc : s.controls <;> simp [frameStep, htgt, hc]
    refine ⟨?_, ?_, ?_⟩
    · rw [hcam]
      obtain ⟨tx, ty, tz⟩ := tgt
      obtain ⟨cx, cy, cz⟩ := s.cameraPos
      simp only [lerpV, vadd, vsub, smul, Prod.mk.injEq]
      refine ⟨by ring, by ring, by ring⟩
    · intro c hc
      constructor
      · simp [frameStep, htgt, hc]
      · simp [frameStep, htgt, hc]
    · intro hc
      simp [frameStep, htgt, hc]

/-- Witness for `frame_step_spec` in state `sFocusing` (no surface, focus
at `(30, 0, 0)`) at scale `3/10`: the no-mutation branch is exercised on
`sCtl` (no focus) via the same theorem applied at `sCtl`. -/
theorem frame_step_spec_witness :
    frameStep (3/10) sCtl = sCtl ∧
    vsub (frameStep (3/10) sFocusing).cameraPos sFocusing.cameraPos
        = smul (8/100)
            (vsub (vadd (30, 0, 0) (0, 12 * (3/10), 24 * (3/10)))
              sFocusing.cameraPos) ∧
    (frameStep (3/10) sFocusing).cameraLookAt = some (30, 0, 0) :=
  ⟨(frame_step_spec (3/10) sCtl).1 (by rfl),
    ((frame_step_spec (3/10) sFocusing).2 (30, 0, 0) (by rfl)).1,
    ((frame_step_spec (3/10) sFocusing).2 (30, 0, 0) (by rfl)).2.2 (by rfl)⟩

/-- Claim C10: the host `App` initializes `resetSignal` with
`useState(0)` and passes it down, so at component mount the reset effect's
`typeof resetSignal === 'number'` guard already holds and the full
reset/homing procedure runs once without any reset-signal change: the
camera is snapped to the home position, the focus is set to the origin,
and the 600-tick timer is armed with the first timer identifier. -/
theorem mount_runs_reset (asts : List Asteroid) (scale : ℚ) (now : Nat)
    (cam0 : Vec3) (controls : Option Controls) :
    (mount asts scale none (some 0) now cam0 controls).targetRef
      = some (0, 0, 0) ∧
    (mount asts scale none (some 0) now cam0 controls).cameraPos
      = (0, 20 * mathMax 1 scale, 40 * mathMax 1 scale) ∧
    (mount asts scale none (some 0) now cam0 controls).pendingTimer
      = some (0, now + 600) := by
  have hh : highlightEffect asts scale none (initState cam0 controls)
      = { initState cam0 controls with targetRef := none } := rfl
  refine ⟨?_, ?_, ?_⟩
  · rw [mount, hh]
    exact resetEffect_targetRef scale 0 now _
  · rw [mount, hh]
    exact resetEffect_cameraPos scale 0 now _
  · rw [mount, hh]
    exact resetEffect_pendingTimer scale 0 now _
